import Mathlib

/-!
Shallow embedding of src/skills/velmios-lib/assets/quick_start_example.py:
a FastAPI quick-start example wiring three routes to the velmios
authentication and authorization dependencies.  The velmios library itself
is not part of the repository; its two dependency gates and the framework
dispatch pipeline are modelled from the specification where claims need
them, and marked as such.
-/

namespace QuickStart

/-- Persona classification of the authenticated caller
(AuthenticationPersona in velmios.core.security): at least ADMIN and
CUSTOMER, and implicitly a SYSTEM variant for system-to-system calls. -/
inductive AuthenticationPersona where
  | ADMIN
  | CUSTOMER
  | SYSTEM
  deriving DecidableEq, Repr

/-- Abstract identifier wrapper standing for a Python uuid value. -/
structure Uuid where
  val : Nat
  deriving DecidableEq, Repr

/-- Python str applied to a Uuid. -/
def strOfUuid (u : Uuid) : String := toString u.val

/-- Abstract tenant identifier (RealmId in velmios.core.types). -/
structure RealmId where
  val : Nat
  deriving DecidableEq, Repr

/-- Python str applied to a RealmId. -/
def strOfRealmId (r : RealmId) : String := toString r.val

/-- Role value carried by admin and customer entities; the handlers place
it in responses unconverted, so it is kept distinct from strings. -/
structure Role where
  name : String
  deriving DecidableEq, Repr

/-- Email value of an admin; get_me converts it with str. -/
structure Email where
  addr : String
  deriving DecidableEq, Repr

/-- Python str applied to an Email. -/
def strOfEmail (e : Email) : String := e.addr

/-- Admin sub-entity: identifier, role and email. -/
structure AdminEntity where
  id : Uuid
  role : Role
  email : Email
  deriving DecidableEq, Repr

/-- Customer sub-entity: identifier, role and realm identifier. -/
structure CustomerEntity where
  id : Uuid
  role : Role
  realm_id : RealmId
  deriving DecidableEq, Repr

/-- System sub-entity: identifier only. -/
structure SystemEntity where
  id : Uuid
  deriving DecidableEq, Repr

/-- Per-request value produced by the authorization layer: the resolved
persona, a realm identifier, and conditionally an admin, customer or
system sub-entity. -/
structure AuthenticationContext where
  persona : AuthenticationPersona
  realm_id : RealmId
  admin : Option AdminEntity
  customer : Option CustomerEntity
  system : Option SystemEntity
  deriving DecidableEq, Repr

/-- auth.persona_is(p): the persona equality test used by get_me. -/
def AuthenticationContext.persona_is (auth : AuthenticationContext)
    (p : AuthenticationPersona) : Bool :=
  decide (auth.persona = p)

/-- A value placed in a JSON response dictionary.  The constructor records
the Python runtime type of the value: vStr is the result of a str
conversion, vPersona a raw AuthenticationPersona member, vRole a raw role
value. -/
inductive PyValue where
  | vStr (s : String)
  | vPersona (p : AuthenticationPersona)
  | vRole (r : Role)
  deriving DecidableEq, Repr

/-- Whether a response value is a Python string produced by str. -/
def PyValue.isPyStr : PyValue → Bool
  | .vStr _ => true
  | _ => false

/-- A Python dict literal, as an association list in source order. -/
abbrev PyDict := List (String × PyValue)

/-- Handler of GET /my-resource. -/
def get_my_resource (auth : AuthenticationContext) : PyDict :=
  [("realm_id", PyValue.vStr (strOfRealmId auth.realm_id)),
   ("persona", PyValue.vPersona auth.persona)]

/-- Handler of POST /internal/sync.  The body reads auth.system.id
unconditionally; in the embedding the fallible attribute access makes the
result an Option, none when the system sub-entity is absent. -/
def sync_data (auth : AuthenticationContext) : Option PyDict :=
  auth.system.map fun s => [("system_id", PyValue.vStr (strOfUuid s.id))]

/-- Handler of GET /me.  Dispatches on auth.persona_is(ADMIN); the
admin branch reads auth.admin, the else branch reads auth.customer, either
of which is a fallible attribute access. -/
def get_me (auth : AuthenticationContext) : Option PyDict :=
  if auth.persona_is AuthenticationPersona.ADMIN then
    auth.admin.map fun admin =>
      [("id", PyValue.vStr (strOfUuid admin.id)),
       ("role", PyValue.vRole admin.role),
       ("email", PyValue.vStr (strOfEmail admin.email))]
  else
    auth.customer.map fun customer =>
      [("id", PyValue.vStr (strOfUuid customer.id)),
       ("role", PyValue.vRole customer.role),
       ("realm_id", PyValue.vStr (strOfRealmId customer.realm_id))]

/-- The information the authorization layer holds about a caller before a
gate runs: the candidate context plus, for system principals, whether the
credential verified and which scopes it grants. -/
structure Caller where
  auth : AuthenticationContext
  systemVerified : Bool
  systemScopes : List String
  deriving DecidableEq, Repr

/-- Result of running a dependency gate on a caller. -/
inductive GateResult where
  | resolved (auth : AuthenticationContext)
  | denied
  deriving DecidableEq, Repr

/-- Modelled from the spec: DependsAuthorizedPersona belongs to the
velmios library, which is absent from the repository.  Per the spec, a
persona-gate, given an allowed set of personas, resolves to an
AuthenticationContext if and only if the authenticated persona of the
caller is a member of that set; otherwise it denies. -/
def DependsAuthorizedPersona (allowed : List AuthenticationPersona)
    (c : Caller) : GateResult :=
  if c.auth.persona ∈ allowed then .resolved c.auth else .denied

/-- Modelled from the spec: DependsSystemHasScope belongs to the velmios
library, which is absent from the repository.  Per the spec, a scope-gate,
given a required scope string, resolves to an AuthenticationContext only
if the caller is a verified system principal holding that scope; otherwise
it denies. -/
def DependsSystemHasScope (required_scope : String) (c : Caller) :
    GateResult :=
  if c.auth.persona = AuthenticationPersona.SYSTEM ∧
      c.auth.system.isSome = true ∧ c.systemVerified = true ∧
      required_scope ∈ c.systemScopes
  then .resolved c.auth else .denied

/-- Outcome of one request: the gate may deny before the handler body
runs; a handler hitting a missing sub-entity is an internal error. -/
inductive RouteOutcome where
  | ok (d : PyDict)
  | accessDenied
  | internalError
  deriving DecidableEq, Repr

/-- Modelled from the spec: the dependency-injection pipeline of the web
framework, absent from the repository.  The gate runs first; only on
resolution does the handler body execute. -/
def runRoute (gate : Caller → GateResult)
    (handler : AuthenticationContext → Option PyDict) (c : Caller) :
    RouteOutcome :=
  match gate c with
  | .resolved a =>
    match handler a with
    | some d => .ok d
    | none => .internalError
  | .denied => .accessDenied

/-- The GET /my-resource route: persona-gate then handler. -/
def myResourceRoute (c : Caller) : RouteOutcome :=
  runRoute
    (DependsAuthorizedPersona
      [AuthenticationPersona.ADMIN, AuthenticationPersona.CUSTOMER])
    (fun a => some (get_my_resource a)) c

/-- The POST /internal/sync route: scope-gate then handler. -/
def internalSyncRoute (c : Caller) : RouteOutcome :=
  runRoute (DependsSystemHasScope "my_service.sync:execute") sync_data c

/-- The GET /me route: persona-gate then handler. -/
def meRoute (c : Caller) : RouteOutcome :=
  runRoute
    (DependsAuthorizedPersona
      [AuthenticationPersona.ADMIN, AuthenticationPersona.CUSTOMER])
    get_me c

/-- A context the authorization layer has fully resolved: the sub-entity
selected by the persona is populated (spec section 3). -/
def Resolved (auth : AuthenticationContext) : Prop :=
  (auth.persona = AuthenticationPersona.ADMIN → auth.admin.isSome = true) ∧
  (auth.persona = AuthenticationPersona.CUSTOMER →
    auth.customer.isSome = true) ∧
  (auth.persona = AuthenticationPersona.SYSTEM → auth.system.isSome = true)

instance (auth : AuthenticationContext) : Decidable (Resolved auth) := by
  unfold Resolved
  infer_instance

/-- State-passing translation of get_my_resource: the request state is the
context object; the body only reads it. -/
def get_my_resourceM : StateM AuthenticationContext PyDict := do
  let auth ← get
  pure [("realm_id", PyValue.vStr (strOfRealmId auth.realm_id)),
        ("persona", PyValue.vPersona auth.persona)]

/-- State-passing translation of sync_data. -/
def sync_dataM : StateM AuthenticationContext (Option PyDict) := do
  let auth ← get
  pure (auth.system.map fun s =>
    [("system_id", PyValue.vStr (strOfUuid s.id))])

/-- State-passing translation of get_me. -/
def get_meM : StateM AuthenticationContext (Option PyDict) := do
  let auth ← get
  if auth.persona_is AuthenticationPersona.ADMIN then
    pure (auth.admin.map fun admin =>
      [("id", PyValue.vStr (strOfUuid admin.id)),
       ("role", PyValue.vRole admin.role),
       ("email", PyValue.vStr (strOfEmail admin.email))])
  else
    pure (auth.customer.map fun customer =>
      [("id", PyValue.vStr (strOfUuid customer.id)),
       ("role", PyValue.vRole customer.role),
       ("realm_id", PyValue.vStr (strOfRealmId customer.realm_id))])

/-- The three handlers of the app, in uniform stateful form. -/
def appHandlers : List (StateM AuthenticationContext (Option PyDict)) :=
  [do pure (some (← get_my_resourceM)), sync_dataM, get_meM]

/-- Two requests, each owning its per-request context; the first handler
runs, then the second, over the pair of states. -/
def runTwoRequests {α β : Type}
    (m1 : StateM AuthenticationContext α)
    (m2 : StateM AuthenticationContext β)
    (w : AuthenticationContext × AuthenticationContext) :
    α × β × (AuthenticationContext × AuthenticationContext) :=
  let r1 := m1.run w.1
  let r2 := m2.run w.2
  (r1.1, r2.1, (r1.2, r2.2))

/-- Sample admin entity for concrete evaluations. -/
def sampleAdmin : AdminEntity := ⟨⟨10⟩, ⟨"superadmin"⟩, ⟨"admin@example.com"⟩⟩

/-- Sample customer entity for concrete evaluations. -/
def sampleCustomer : CustomerEntity := ⟨⟨11⟩, ⟨"customer"⟩, ⟨7⟩⟩

/-- Sample system entity for concrete evaluations. -/
def sampleSystem : SystemEntity := ⟨⟨12⟩⟩

/-- A resolved ADMIN context. -/
def sampleAdminCtx : AuthenticationContext :=
  ⟨AuthenticationPersona.ADMIN, ⟨1⟩, some sampleAdmin, none, none⟩

/-- A resolved CUSTOMER context. -/
def sampleCustomerCtx : AuthenticationContext :=
  ⟨AuthenticationPersona.CUSTOMER, ⟨2⟩, none, some sampleCustomer, none⟩

/-- A resolved SYSTEM context which also happens to carry a customer
sub-entity, to exercise the else branch of get_me. -/
def sampleSystemCtx : AuthenticationContext :=
  ⟨AuthenticationPersona.SYSTEM, ⟨3⟩, none, some sampleCustomer,
    some sampleSystem⟩

/-- A verified system caller holding the sync scope. -/
def sampleSystemCaller : Caller :=
  ⟨sampleSystemCtx, true, ["my_service.sync:execute"]⟩

/-- Claim C1: for every resolved ADMIN context, get_me returns the
admin-shaped fields id, role, email taken from auth.admin; for every
resolved CUSTOMER context it returns the customer-shaped fields id, role,
realm_id taken from auth.customer (resolution guarantees the matching
sub-entity is populated). -/
theorem get_me_resolved_shapes (auth : AuthenticationContext)
    (hres : Resolved auth) :
    (auth.persona = AuthenticationPersona.ADMIN →
      auth.admin.isSome = true) ∧
    (auth.persona = AuthenticationPersona.CUSTOMER →
      auth.customer.isSome = true) ∧
    (∀ a, auth.persona = AuthenticationPersona.ADMIN →
      auth.admin = some a →
      get_me auth = some
        [("id", PyValue.vStr (strOfUuid a.id)),
         ("role", PyValue.vRole a.role),
         ("email", PyValue.vStr (strOfEmail a.email))]) ∧
    (∀ cst, auth.persona = AuthenticationPersona.CUSTOMER →
      auth.customer = some cst →
      get_me auth = some
        [("id", PyValue.vStr (strOfUuid cst.id)),
         ("role", PyValue.vRole cst.role),
         ("realm_id", PyValue.vStr (strOfRealmId cst.realm_id))]) := by
  refine ⟨hres.1, hres.2.1, ?_, ?_⟩
  · intro a hp ha
    simp [get_me, AuthenticationContext.persona_is, hp, ha]
  · intro cst hp hc
    simp [get_me, AuthenticationContext.persona_is, hp, hc]

/-- Witness for C1: the admin branch evaluated at a concrete resolved
ADMIN context. -/
theorem get_me_resolved_shapes_witness :
    get_me sampleAdminCtx = some
      [("id", PyValue.vStr (strOfUuid sampleAdmin.id)),
       ("role", PyValue.vRole sampleAdmin.role),
       ("email", PyValue.vStr (strOfEmail sampleAdmin.email))] :=
  (get_me_resolved_shapes sampleAdminCtx (by decide)).2.2.1 sampleAdmin
    rfl rfl

/-- Claim C2: get_my_resource returns a dictionary with exactly the keys
realm_id and persona, holding the string form of auth.realm_id and the raw
persona of the resolved context. -/
theorem get_my_resource_echoes (auth : AuthenticationContext) :
    (get_my_resource auth).map Prod.fst = ["realm_id", "persona"] ∧
    List.lookup "realm_id" (get_my_resource auth) =
      some (PyValue.vStr (strOfRealmId auth.realm_id)) ∧
    List.lookup "persona" (get_my_resource auth) =
      some (PyValue.vPersona auth.persona) := by
  refine ⟨rfl, rfl, rfl⟩

/-- Claim C3: on a context carrying a system sub-entity, sync_data returns
a dictionary whose only key is system_id, holding the string form of
auth.system.id. -/
theorem sync_data_echoes_system_id (auth : AuthenticationContext)
    (s : SystemEntity) (h : auth.system = some s) :
    sync_data auth =
      some [("system_id", PyValue.vStr (strOfUuid s.id))] ∧
    (sync_data auth).map (fun d => d.map Prod.fst) = some ["system_id"] := by
  simp [sync_data, h]

/-- Witness for C3: evaluated at a concrete system-carrying context. -/
theorem sync_data_echoes_system_id_witness :
    sync_data sampleSystemCtx =
      some [("system_id", PyValue.vStr (strOfUuid sampleSystem.id))] :=
  (sync_data_echoes_system_id sampleSystemCtx sampleSystem rfl).1

/-- Claim C4: the persona-gate with allowed set [ADMIN, CUSTOMER]
resolves, necessarily to the caller context, iff the caller persona is in
that set; otherwise both persona-gated routes produce an access denial
without running the handler body. -/
theorem persona_gate_iff (c : Caller) :
    ((∃ a, DependsAuthorizedPersona
        [AuthenticationPersona.ADMIN, AuthenticationPersona.CUSTOMER] c =
          GateResult.resolved a) ↔
      c.auth.persona ∈
        [AuthenticationPersona.ADMIN, AuthenticationPersona.CUSTOMER]) ∧
    (∀ a, DependsAuthorizedPersona
        [AuthenticationPersona.ADMIN, AuthenticationPersona.CUSTOMER] c =
          GateResult.resolved a → a = c.auth) ∧
    (c.auth.persona ∉
        [AuthenticationPersona.ADMIN, AuthenticationPersona.CUSTOMER] →
      myResourceRoute c = RouteOutcome.accessDenied ∧
      meRoute c = RouteOutcome.accessDenied) := by
  unfold myResourceRoute meRoute runRoute
  by_cases h : c.auth.persona ∈
      [AuthenticationPersona.ADMIN, AuthenticationPersona.CUSTOMER] <;>
    simp [DependsAuthorizedPersona, h, eq_comm]

/-- Witness for C4: a SYSTEM-persona caller is denied on both routes. -/
theorem persona_gate_iff_witness :
    myResourceRoute ⟨sampleSystemCtx, false, []⟩ =
        RouteOutcome.accessDenied ∧
      meRoute ⟨sampleSystemCtx, false, []⟩ = RouteOutcome.accessDenied :=
  (persona_gate_iff ⟨sampleSystemCtx, false, []⟩).2.2 (by decide)

/-- Claim C5: the scope-gate on /internal/sync resolves only for a
verified system principal holding the required scope, and for every other
caller it denies and the handler body does not execute. -/
theorem scope_gate_only_verified (c : Caller) :
    (∀ a, DependsSystemHasScope "my_service.sync:execute" c =
        GateResult.resolved a →
      a = c.auth ∧ c.auth.persona = AuthenticationPersona.SYSTEM ∧
        c.auth.system.isSome = true ∧ c.systemVerified = true ∧
        "my_service.sync:execute" ∈ c.systemScopes) ∧
    (¬ (c.auth.persona = AuthenticationPersona.SYSTEM ∧
          c.auth.system.isSome = true ∧ c.systemVerified = true ∧
          "my_service.sync:execute" ∈ c.systemScopes) →
      DependsSystemHasScope "my_service.sync:execute" c =
          GateResult.denied ∧
        internalSyncRoute c = RouteOutcome.accessDenied) := by
  constructor
  · intro a ha
    unfold DependsSystemHasScope at ha
    split_ifs at ha with hcond
    exact ⟨(GateResult.resolved.inj ha).symm, hcond.1, hcond.2.1,
      hcond.2.2.1, hcond.2.2.2⟩
  · intro hn
    have hd : DependsSystemHasScope "my_service.sync:execute" c =
        GateResult.denied := by
      unfold DependsSystemHasScope
      rw [if_neg hn]
    refine ⟨hd, ?_⟩
    unfold internalSyncRoute runRoute
    rw [hd]

/-- Witness for C5: an ADMIN-persona caller with no scopes is denied and
the sync handler never runs. -/
theorem scope_gate_only_verified_witness :
    DependsSystemHasScope "my_service.sync:execute"
        ⟨sampleAdminCtx, true, []⟩ = GateResult.denied ∧
      internalSyncRoute ⟨sampleAdminCtx, true, []⟩ =
        RouteOutcome.accessDenied :=
  (scope_gate_only_verified ⟨sampleAdminCtx, true, []⟩).2 (by decide)

/-- Claim C6: the handlers only read the context: each state-passing
translation leaves the request state unchanged and returns the same
dictionary as the corresponding pure handler. -/
theorem handlers_read_only (auth : AuthenticationContext) :
    (get_my_resourceM.run auth).2 = auth ∧
    (sync_dataM.run auth).2 = auth ∧
    (get_meM.run auth).2 = auth ∧
    (get_my_resourceM.run auth).1 = get_my_resource auth ∧
    (sync_dataM.run auth).1 = sync_data auth ∧
    (get_meM.run auth).1 = get_me auth := by
  have hme : get_meM.run auth = (get_me auth, auth) := by
    simp only [get_meM, get_me, StateT.run, bind, StateT.bind, get, getThe,
      MonadStateOf.get, StateT.get, pure, StateT.pure]
    split <;> rfl
  exact ⟨rfl, rfl, by rw [hme], rfl, rfl, by rw [hme]⟩

/-- Claim C7: each registered handler is a deterministic function of its
own request context, and in a two-request run the outcome of the second
request does not depend on the first request at all. -/
theorem handlers_deterministic_independent
    (h1 h2 : StateM AuthenticationContext (Option PyDict))
    (hm1 : h1 ∈ appHandlers) (hm2 : h2 ∈ appHandlers)
    (a1 a2 b2 : AuthenticationContext) (he : a2 = b2) :
    (h2.run a2).1 = (h2.run b2).1 ∧
    (runTwoRequests h1 h2 (a1, a2)).2.1 = (h2.run a2).1 := by
  subst he
  exact ⟨rfl, rfl⟩

/-- Witness for C7: get_me as second request next to sync_data as first,
at concrete contexts. -/
theorem handlers_deterministic_independent_witness :
    (get_meM.run sampleAdminCtx).1 = (get_meM.run sampleAdminCtx).1 ∧
    (runTwoRequests sync_dataM get_meM
        (sampleSystemCtx, sampleAdminCtx)).2.1 =
      (get_meM.run sampleAdminCtx).1 :=
  handlers_deterministic_independent sync_dataM get_meM
    (List.Mem.tail _ (List.Mem.head _))
    (List.Mem.tail _ (List.Mem.tail _ (List.Mem.head _)))
    sampleSystemCtx sampleAdminCtx sampleAdminCtx rfl

/-- Claim C8: get_me dispatches only on persona_is(ADMIN); every context
whose persona is not ADMIN, CUSTOMER or not, takes the else branch and is
shaped from auth.customer. -/
theorem get_me_non_admin_customer_branch (auth : AuthenticationContext)
    (h : auth.persona ≠ AuthenticationPersona.ADMIN) :
    get_me auth = auth.customer.map fun customer =>
      [("id", PyValue.vStr (strOfUuid customer.id)),
       ("role", PyValue.vRole customer.role),
       ("realm_id", PyValue.vStr (strOfRealmId customer.realm_id))] := by
  simp [get_me, AuthenticationContext.persona_is, h]

/-- Witness for C8: a SYSTEM-persona context carrying a customer
sub-entity is answered with the customer shape. -/
theorem get_me_non_admin_customer_branch_witness :
    get_me sampleSystemCtx = some
      [("id", PyValue.vStr (strOfUuid sampleCustomer.id)),
       ("role", PyValue.vRole sampleCustomer.role),
       ("realm_id", PyValue.vStr (strOfRealmId sampleCustomer.realm_id))] :=
  get_me_non_admin_customer_branch sampleSystemCtx (by decide)

/-- Claim C9: whenever the scope-gate resolves a caller, the resolved
context has a populated system sub-entity, so the unconditional
auth.system.id access in sync_data succeeds and the route never ends in an
internal error. -/
theorem sync_data_defined_after_gate (c : Caller)
    (a : AuthenticationContext)
    (h : DependsSystemHasScope "my_service.sync:execute" c =
      GateResult.resolved a) :
    a.system.isSome = true ∧ (sync_data a).isSome = true ∧
    internalSyncRoute c ≠ RouteOutcome.internalError := by
  unfold DependsSystemHasScope at h
  split_ifs at h with hcond
  have ha : a = c.auth := (GateResult.resolved.inj h).symm
  subst ha
  refine ⟨hcond.2.1, ?_, ?_⟩
  · simp [sync_data, Option.isSome_map, hcond.2.1]
  · unfold internalSyncRoute runRoute DependsSystemHasScope
    rw [if_pos hcond]
    obtain ⟨s, hs⟩ := Option.isSome_iff_exists.mp hcond.2.1
    simp [sync_data, hs]

/-- Witness for C9: the verified sample system caller. -/
theorem sync_data_defined_after_gate_witness :
    sampleSystemCtx.system.isSome = true ∧
      (sync_data sampleSystemCtx).isSome = true ∧
      internalSyncRoute sampleSystemCaller ≠ RouteOutcome.internalError :=
  sync_data_defined_after_gate sampleSystemCaller sampleSystemCtx
    (by decide)

/-- Claim C10: every identifier-like response field holds the str form of
its source value, realm_id in get_my_resource, system.id in sync_data,
admin.id, admin.email, customer.id and customer.realm_id in get_me, while
persona and role values are placed unconverted. -/
theorem response_str_conversion (auth : AuthenticationContext) :
    (List.lookup "realm_id" (get_my_resource auth) =
        some (PyValue.vStr (strOfRealmId auth.realm_id)) ∧
      List.lookup "persona" (get_my_resource auth) =
        some (PyValue.vPersona auth.persona) ∧
      (List.lookup "persona" (get_my_resource auth)).map PyValue.isPyStr =
        some false) ∧
    (∀ s, auth.system = some s →
      (sync_data auth).bind (List.lookup "system_id") =
        some (PyValue.vStr (strOfUuid s.id))) ∧
    (∀ a, auth.persona = AuthenticationPersona.ADMIN →
      auth.admin = some a →
      (get_me auth).bind (List.lookup "id") =
          some (PyValue.vStr (strOfUuid a.id)) ∧
        (get_me auth).bind (List.lookup "email") =
          some (PyValue.vStr (strOfEmail a.email)) ∧
        (get_me auth).bind (List.lookup "role") =
          some (PyValue.vRole a.role) ∧
        ((get_me auth).bind (List.lookup "role")).map PyValue.isPyStr =
          some false) ∧
    (∀ cst, auth.persona ≠ AuthenticationPersona.ADMIN →
      auth.customer = some cst →
      (get_me auth).bind (List.lookup "id") =
          some (PyValue.vStr (strOfUuid cst.id)) ∧
        (get_me auth).bind (List.lookup "realm_id") =
          some (PyValue.vStr (strOfRealmId cst.realm_id)) ∧
        (get_me auth).bind (List.lookup "role") =
          some (PyValue.vRole cst.role) ∧
        ((get_me auth).bind (List.lookup "role")).map PyValue.isPyStr =
          some false) := by
  refine ⟨⟨rfl, rfl, rfl⟩, ?_, ?_, ?_⟩
  · intro s hs
    simp [sync_data, hs, List.lookup]
  · intro a hp ha
    simp [get_me, AuthenticationContext.persona_is, hp, ha, List.lookup,
      PyValue.isPyStr]
  · intro cst hp hc
    simp [get_me, AuthenticationContext.persona_is, hp, hc, List.lookup,
      PyValue.isPyStr]

/-- Witness for C10: the sync response field at a concrete context. -/
theorem response_str_conversion_witness :
    (sync_data sampleSystemCtx).bind (List.lookup "system_id") =
      some (PyValue.vStr (strOfUuid sampleSystem.id)) :=
  (response_str_conversion sampleSystemCtx).2.1 sampleSystem rfl

end QuickStart
